import Mathlib

/-!
Shallow embedding of the hive-jwt-auth core: the validation utilities
(`isNumeric`, `checkExpiration`, `checkExpiresIn`, `checkManifestOrArray`,
`checkEndpoint`), the token signer (`HiveJwtCreator.sign`,
`HiveJwtCreator.signReporting`), the public-key registry client
(`HivePublicKeyServiceClient` with its `axiosErrorHandler`), and the
create-jwt CLI handler, together with theorems settling the specification's
claims about them.

Modelling conventions:
- JavaScript numbers are modelled as exact integers (`Int`); all values that
  the code manipulates here are integral second/millisecond counts.
- The external zeit/ms duration parser is an explicit parameter
  `msParse : String → Option Int` giving the parsed millisecond count;
  `none` stands for the `undefined` return on unparseable input, which the
  source turns into `NaN` by arithmetic and then rejects with its trailing
  `isNaN` guard (for an ASCII-digit string `parseInt` never yields `NaN`, and
  a successfully parsed ms value is always finite, so `NaN` arises exactly
  from the `none` case).
- Wall-clock reads (`Date.now()`, the `iat` second stamp) are explicit
  `now` parameters.
- Thrown JS errors are `Except.error` values of inductive error types whose
  constructors carry the data interpolated into the source's message strings.
- The network is external: each registry operation takes the remote outcome
  (`Except CaughtError α`) as a parameter and embeds only the client's own
  translation of it.
-/

set_option linter.unusedVariables false

/-- Failures thrown by the validation utilities; each constructor mirrors one
`throw new Error(...)` site in the source and carries the interpolated input. -/
inductive ValidationFailure where
  | invalidExpiration (input : String)
  | invalidExpiresIn (input : String)
  | manifestOrRegex
  | invalidEndpoint (input : String)
  deriving DecidableEq, Repr

/-- Embeds `isNumeric`: the regex test `/^\d+$/` succeeds exactly when the
string is non-empty and every character is an ASCII digit (`\d` is `[0-9]`;
unanchored matches are excluded by `^`/`$`). -/
def isNumeric (value : String) : Bool :=
  !value.data.isEmpty && value.data.all Char.isDigit

/-- Embeds JavaScript `parseInt(s, 10)` on inputs already known to match
`^\d+$`: the base-10 integer denoted by the digit string. -/
def jsParseInt (s : String) : Int :=
  Int.ofNat (s.data.foldl (fun a c => a * 10 + (c.toNat - 48)) 0)

/-- Embeds `checkExpiration` (absolute mode): a numeric string is
`parseInt(expiration, 10)`; otherwise `Math.floor((Date.now() + ms(expiration)) / 1000)`
with `now` the `Date.now()` millisecond reading; the trailing `isNaN` guard
fires exactly when `ms` returned `undefined` (the `none` branch). -/
def checkExpiration (now : Int) (msParse : String → Option Int)
    (expiration : String) : Except ValidationFailure Int :=
  if isNumeric expiration then
    .ok (jsParseInt expiration)
  else
    match msParse expiration with
    | some d => .ok (Int.fdiv (now + d) 1000)
    | none => .error (.invalidExpiration expiration)

/-- Embeds `checkExpiresIn` (relative mode): a numeric string is
`parseInt(expiration, 10)`; otherwise `Math.floor(ms(expiration) / 1000)`;
the `isNaN` guard again corresponds to the `none` branch. -/
def checkExpiresIn (msParse : String → Option Int)
    (expiration : String) : Except ValidationFailure Int :=
  if isNumeric expiration then
    .ok (jsParseInt expiration)
  else
    match msParse expiration with
    | some d => .ok (Int.fdiv d 1000)
    | none => .error (.invalidExpiresIn expiration)

/-- Result object of `checkManifestOrArray`: the `man` field plus the
optional `regexes` field (`none` models an absent field on the returned
object). -/
structure ManifestClaims where
  man : List String
  regexes : Option (List String)
  deriving DecidableEq, Repr

/-- Embeds `checkManifestOrArray`. With `regexes` present (JS truthy, even
when empty), the only success is an empty manifest list with a non-empty
regex list; with `regexes` absent (`undefined`, JS falsy), the only success
is a non-empty manifest list; everything else throws. -/
def checkManifestOrArray (manifest : List String)
    (regexes : Option (List String)) : Except ValidationFailure ManifestClaims :=
  match regexes with
  | some r =>
      if manifest.length = 0 ∧ 0 < r.length then
        .ok { man := manifest, regexes := some r }
      else
        .error .manifestOrRegex
  | none =>
      if 0 < manifest.length then
        .ok { man := manifest, regexes := none }
      else
        .error .manifestOrRegex

/-- Endpoint selector: the two values admitted by `checkEndpoint` and by the
TypeScript union type of the signing and client constructors. -/
inductive Endpoint where
  | prod
  | test
  deriving DecidableEq, Repr

/-- Embeds `checkEndpoint`: only the strings "prod" and "test" are accepted;
anything else throws carrying the offending input. -/
def checkEndpoint (endpoint : String) : Except ValidationFailure Endpoint :=
  if endpoint = "prod" then .ok .prod
  else if endpoint = "test" then .ok .test
  else .error (.invalidEndpoint endpoint)

/-- Embeds the hostname infix `endpoint === 'prod' ? '' : '-' + endpoint`
used by both `signReporting` and the client constructor's base URL. -/
def endpointInfix : Endpoint → String
  | .prod => ""
  | .test => "-test"

/-- JSON values occurring in the token payloads: strings, integral numbers,
and arrays of strings. -/
inductive JsonValue where
  | str (s : String)
  | num (n : Int)
  | arr (xs : List String)
  deriving DecidableEq, Repr

/-- JOSE header of a token produced by the jsonwebtoken `sign` call: the
algorithm and the `kid` from the `keyid` option. -/
structure JwtHeader where
  alg : String
  kid : String
  deriving DecidableEq, Repr

/-- Signed token before compact serialization: header, the payload object as
an ordered key/value list, and the private key the RS256 signature is
computed with. -/
structure SignedJwt where
  header : JwtHeader
  payload : List (String × JsonValue)
  signedWith : String
  deriving DecidableEq, Repr

/-- Embeds the `HiveJwtCreator` instance state: the partner id and the
private key bytes fixed at construction. -/
structure HiveJwtCreator where
  partnerId : String
  privateKey : String
  deriving DecidableEq, Repr

/-- Embeds `HiveJwtCreator.sign`. The source builds the `data` object from
its five declared parameters and calls jsonwebtoken `sign` with algorithm
RS256, `keyid: keyId` and `expiresIn`; jsonwebtoken stamps `iat := now`
(the floored clock second) and `exp := now + expiresIn` where `expiresIn`
here is the resolved second count (a numeric argument is used as seconds; a
string argument is resolved through the library's bundled ms parser, floored
to seconds, before this addition). -/
def HiveJwtCreator.sign (c : HiveJwtCreator) (keyId customerId videoId : String)
    (manifests : List String) (expiresIn : Int) (now : Int) : SignedJwt :=
  { header := { alg := "RS256", kid := keyId },
    payload := [("iss", .str c.partnerId), ("sub", .str videoId),
      ("ver", .str "1.0"), ("aud", .str "https://hivestreaming.com"),
      ("cid", .str customerId), ("man", .arr manifests),
      ("iat", .num now), ("exp", .num (now + expiresIn))],
    signedWith := c.privateKey }

/-- Embeds the token built inside `HiveJwtCreator.signReporting`: same
identity claims, `act: "reporting"` in place of the manifest list. -/
def HiveJwtCreator.reportingJwt (c : HiveJwtCreator)
    (keyId customerId videoId : String) (expiresIn now : Int) : SignedJwt :=
  { header := { alg := "RS256", kid := keyId },
    payload := [("iss", .str c.partnerId), ("sub", .str videoId),
      ("ver", .str "1.0"), ("aud", .str "https://hivestreaming.com"),
      ("cid", .str customerId), ("act", .str "reporting"),
      ("iat", .num now), ("exp", .num (now + expiresIn))],
    signedWith := c.privateKey }

/-- Embeds `HiveJwtCreator.signReporting`: signs the reporting claims and
interpolates the compact token into the redirect URL template, with the
hostname infix chosen by the endpoint selector. `jwtEncode` stands for the
external jsonwebtoken compact serialization and RSA signing. -/
def HiveJwtCreator.signReporting (c : HiveJwtCreator)
    (jwtEncode : SignedJwt → String) (keyId customerId videoId : String)
    (expiresIn now : Int) (endpoint : Endpoint) : String :=
  "https://api" ++ endpointInfix endpoint
    ++ ".hivestreaming.com/v1/url-redirect/adminportal-jwt/"
    ++ jwtEncode (c.reportingJwt keyId customerId videoId expiresIn now)

/-- Arguments of the create-jwt CLI command (the part_003 front end):
besides the five that reach `sign`, the optional `eventName` and `regexes`
options. -/
structure CreateJwtArgs where
  keyId : String
  customerId : String
  videoId : String
  manifest : List String
  expiresIn : String
  eventName : Option String
  regexes : Option (List String)
  deriving DecidableEq, Repr

/-- Embeds jsonwebtoken's resolution of a string `expiresIn` option: the
bundled ms parser gives milliseconds and the library floors the quotient by
1000 into seconds; `none` when the timespan does not parse (the library then
rejects the option). -/
def jwtTimespanSeconds (msParse : String → Option Int) (s : String) : Option Int :=
  (msParse s).map (fun d => Int.fdiv d 1000)

/-- Embeds the create-jwt handler of the part_003 CLI. The handler invokes
`jwtCreator.sign(keyId, customerId, videoId, manifest, expiresIn, eventName,
regexes)`, but `sign` declares only the first five parameters, so under
JavaScript call semantics the surplus `eventName` and `regexes` arguments are
dropped and never reach the signer. The raw `expiresIn` string is resolved
inside jsonwebtoken. -/
def createJwtHandler (c : HiveJwtCreator) (msParse : String → Option Int)
    (now : Int) (args : CreateJwtArgs) : Option SignedJwt :=
  (jwtTimespanSeconds msParse args.expiresIn).map (fun secs =>
    c.sign args.keyId args.customerId args.videoId args.manifest secs now)

/-- Payload posted by `HivePublicKeyServiceClient.create`
(`PublicKeyStorePayload` in the source). -/
structure PublicKeyStorePayload where
  partnerId : String
  keyId : String
  exponent : String
  modulus : String
  expiration : Int
  deriving DecidableEq, Repr

/-- Record returned by `HivePublicKeyServiceClient.get` (`PublicKeyInfo`). -/
structure PublicKeyInfo where
  partnerId : String
  keyId : String
  exponent : String
  modulus : String
  expiration : Int
  createdAt : Int
  deriving DecidableEq, Repr

/-- Entry of the list returned by `HivePublicKeyServiceClient.list`
(`PublicKeyInfoRedactedList` element: no key material). -/
structure PublicKeyInfoRedacted where
  partnerId : String
  keyId : String
  expiration : Int
  createdAt : Int
  deletedAt : Option Int
  deriving DecidableEq, Repr

/-- Remote error response as inspected by the error handler: HTTP status and
the response data (the validation-message blob). -/
structure AxiosResponse where
  status : Int
  data : String
  deriving DecidableEq, Repr

/-- Caught exception as seen by `axiosErrorHandler`: an axios error with an
optional response, or any other thrown value. The `tag` distinguishes
distinct error objects, so that rethrowing the same object unmodified is
observable in the model. -/
inductive CaughtError where
  | axios (response : Option AxiosResponse) (tag : Nat)
  | nonAxios (tag : Nat)
  deriving DecidableEq, Repr

/-- Errors surfaced by the registry client: the four mapped error classes of
the source, plus `rethrown` for the `throw error` fall-through that
propagates the caught value unmodified. -/
inductive HiveServiceError where
  | validation (data : String)
  | authorization
  | notFound (partnerId : String) (keyId : Option String)
  | deleted (partnerId : String) (keyId : Option String)
  | rethrown (original : CaughtError)
  deriving DecidableEq, Repr

/-- Rendering of the optional key id inside a template literal: JavaScript
prints `undefined` for an absent argument. -/
def renderOptionalKeyId : Option String → String
  | some k => k
  | none => "undefined"

/-- Message strings of the four constructed error classes, as built by their
constructors in the source; a rethrown error keeps whatever message the
original carried, which this model does not construct (`none`). -/
def HiveServiceError.message : HiveServiceError → Option String
  | .validation d => some ("Public key validation error: " ++ d)
  | .authorization => some "Authorization required: missing or invalid partner token"
  | .notFound p k => some ("Public key not found: " ++ p ++ "/" ++ renderOptionalKeyId k)
  | .deleted p k => some ("Public key has been deleted: " ++ p ++ "/" ++ renderOptionalKeyId k)
  | .rethrown _ => none

/-- Embeds the `HivePublicKeyServiceClient` instance state. -/
structure HivePublicKeyServiceClient where
  partnerId : String
  partnerToken : String
  baseURL : String
  deriving DecidableEq, Repr

/-- Embeds the client constructor: fixes the partner id, the partner token
header value, and the endpoint-selected base URL. -/
def HivePublicKeyServiceClient.make (partnerId partnerToken : String)
    (endpoint : Endpoint) : HivePublicKeyServiceClient :=
  { partnerId := partnerId, partnerToken := partnerToken,
    baseURL := "https://api" ++ endpointInfix endpoint ++ ".hivestreaming.com/v1" }

/-- Embeds `axiosErrorHandler(error, keyId?)`: an axios error carrying a
response is mapped on its status (400 validation, 403 authorization,
404 not-found, 410 deleted, the latter two stamped with the bound partner id
and the optional key id); any other status, a response-less axios error, or
a non-axios value falls through to `throw error` unmodified. -/
def HivePublicKeyServiceClient.axiosErrorHandler (c : HivePublicKeyServiceClient)
    (error : CaughtError) (keyId : Option String) : HiveServiceError :=
  match error with
  | .axios (some response) _ =>
      if response.status = 400 then .validation response.data
      else if response.status = 403 then .authorization
      else if response.status = 404 then .notFound c.partnerId keyId
      else if response.status = 410 then .deleted c.partnerId keyId
      else .rethrown error
  | _ => .rethrown error

/-- Embeds the error path of `get(keyId)`: remote failures are translated by
`axiosErrorHandler` with the requested key id attached. -/
def HivePublicKeyServiceClient.get (c : HivePublicKeyServiceClient)
    (keyId : String) (remote : Except CaughtError PublicKeyInfo) :
    Except HiveServiceError PublicKeyInfo :=
  match remote with
  | .ok res => .ok res
  | .error e => .error (c.axiosErrorHandler e (some keyId))

/-- Embeds the error path of `list(includeDeleted)`: the handler is invoked
without a key id. -/
def HivePublicKeyServiceClient.list (c : HivePublicKeyServiceClient)
    (includeDeleted : Bool) (remote : Except CaughtError (List PublicKeyInfoRedacted)) :
    Except HiveServiceError (List PublicKeyInfoRedacted) :=
  match remote with
  | .ok res => .ok res
  | .error e => .error (c.axiosErrorHandler e none)

/-- Argument of `create`'s dual-typed expiration parameter
(`string | number`). -/
inductive StringOrNumber where
  | str (s : String)
  | num (n : Int)
  deriving DecidableEq, Repr

/-- Embeds the payload construction inside `create`: a string expiration is
resolved through `checkExpiration` (absolute mode) and a numeric one is used
as-is, before the payload object is posted. -/
def HivePublicKeyServiceClient.createPayload (now : Int)
    (msParse : String → Option Int) (partnerId keyId exponent modulus : String)
    (expiration : StringOrNumber) : Except ValidationFailure PublicKeyStorePayload :=
  match expiration with
  | .str s =>
      (checkExpiration now msParse s).map (fun exp =>
        ⟨partnerId, keyId, exponent, modulus, exp⟩)
  | .num n =>
      .ok ⟨partnerId, keyId, exponent, modulus, n⟩

/-- Embeds the error path of `create(...)`: remote failures are translated by
`axiosErrorHandler` with the submitted key id attached. -/
def HivePublicKeyServiceClient.create (c : HivePublicKeyServiceClient)
    (keyId : String) (remote : Except CaughtError Unit) :
    Except HiveServiceError Unit :=
  match remote with
  | .ok _ => .ok ()
  | .error e => .error (c.axiosErrorHandler e (some keyId))

/-- Embeds the error path of `delete(keyId)`: although the operation takes a
key id, the handler is invoked without one. -/
def HivePublicKeyServiceClient.delete (c : HivePublicKeyServiceClient)
    (keyId : String) (remote : Except CaughtError Unit) :
    Except HiveServiceError Unit :=
  match remote with
  | .ok _ => .ok ()
  | .error e => .error (c.axiosErrorHandler e none)

/-! Helper lemmas about the error handler, shared by the claims below. -/

theorem axiosErrorHandler_status_400 (c : HivePublicKeyServiceClient)
    (response : AxiosResponse) (tag : Nat) (k : Option String)
    (h : response.status = 400) :
    c.axiosErrorHandler (.axios (some response) tag) k = .validation response.data := by
  simp [HivePublicKeyServiceClient.axiosErrorHandler, h]

theorem axiosErrorHandler_status_403 (c : HivePublicKeyServiceClient)
    (response : AxiosResponse) (tag : Nat) (k : Option String)
    (h : response.status = 403) :
    c.axiosErrorHandler (.axios (some response) tag) k = .authorization := by
  have h400 : response.status ≠ 400 := by rw [h]; decide
  simp [HivePublicKeyServiceClient.axiosErrorHandler, h, h400]

theorem axiosErrorHandler_status_404 (c : HivePublicKeyServiceClient)
    (response : AxiosResponse) (tag : Nat) (k : Option String)
    (h : response.status = 404) :
    c.axiosErrorHandler (.axios (some response) tag) k = .notFound c.partnerId k := by
  have h400 : response.status ≠ 400 := by rw [h]; decide
  have h403 : response.status ≠ 403 := by rw [h]; decide
  simp [HivePublicKeyServiceClient.axiosErrorHandler, h, h400, h403]

theorem axiosErrorHandler_status_410 (c : HivePublicKeyServiceClient)
    (response : AxiosResponse) (tag : Nat) (k : Option String)
    (h : response.status = 410) :
    c.axiosErrorHandler (.axios (some response) tag) k = .deleted c.partnerId k := by
  have h400 : response.status ≠ 400 := by rw [h]; decide
  have h403 : response.status ≠ 403 := by rw [h]; decide
  have h404 : response.status ≠ 404 := by rw [h]; decide
  simp [HivePublicKeyServiceClient.axiosErrorHandler, h, h400, h403, h404]

theorem axiosErrorHandler_status_other (c : HivePublicKeyServiceClient)
    (response : AxiosResponse) (tag : Nat) (k : Option String)
    (h400 : response.status ≠ 400) (h403 : response.status ≠ 403)
    (h404 : response.status ≠ 404) (h410 : response.status ≠ 410) :
    c.axiosErrorHandler (.axios (some response) tag) k =
      .rethrown (.axios (some response) tag) := by
  simp [HivePublicKeyServiceClient.axiosErrorHandler, h400, h403, h404, h410]

/-- C3: for every string matching the numeric pattern, the absolute-mode
resolver `checkExpiration` returns exactly `parseInt(s, 10)`, and the
relative-mode resolver `checkExpiresIn` returns the same integer unchanged,
independently of the clock and of the duration parser. -/
theorem numeric_expiration_resolution (now : Int) (msParse : String → Option Int)
    (s : String) (h : isNumeric s = true) :
    checkExpiration now msParse s = .ok (jsParseInt s) ∧
    checkExpiresIn msParse s = .ok (jsParseInt s) := by
  constructor <;> simp [checkExpiration, checkExpiresIn, h]

theorem numeric_expiration_resolution_witness :
    isNumeric "3600" = true ∧
    checkExpiration 987654321 (fun _ => none) "3600" = .ok 3600 ∧
    checkExpiresIn (fun _ => none) "3600" = .ok 3600 := by
  have h := numeric_expiration_resolution 987654321 (fun _ => none) "3600" (by decide)
  exact ⟨by decide, h.1.trans (congrArg Except.ok (by decide)),
    h.2.trans (congrArg Except.ok (by decide))⟩

/-- C4: for every non-numeric duration string that the duration parser
resolves to `d` milliseconds, with fixed clock `now`, `checkExpiration`
returns `floor((now + d) / 1000)` and `checkExpiresIn` returns
`floor(d / 1000)`. -/
theorem duration_expiration_resolution (now : Int) (msParse : String → Option Int)
    (s : String) (d : Int) (hn : isNumeric s = false) (hp : msParse s = some d) :
    checkExpiration now msParse s = .ok (Int.fdiv (now + d) 1000) ∧
    checkExpiresIn msParse s = .ok (Int.fdiv d 1000) := by
  constructor <;> simp [checkExpiration, checkExpiresIn, hn, hp]

theorem duration_expiration_resolution_witness :
    isNumeric "2 days" = false ∧
    checkExpiration 1700000000500 (fun _ => some 172800000) "2 days" = .ok 1700172800 ∧
    checkExpiresIn (fun _ => some 172800000) "2 days" = .ok 172800 := by
  have h := duration_expiration_resolution 1700000000500 (fun _ => some 172800000)
    "2 days" 172800000 (by decide) rfl
  exact ⟨by decide, h.1.trans (congrArg Except.ok (by decide)),
    h.2.trans (congrArg Except.ok (by decide))⟩

/-- C5: on an input that neither matches the numeric pattern nor parses as a
duration, both resolution modes fail with the invalid-expiration error
carrying the original input string; on every other input both return
normally. -/
theorem expiration_failure_characterization (now : Int)
    (msParse : String → Option Int) (s : String) :
    (isNumeric s = false → msParse s = none →
      checkExpiration now msParse s = .error (.invalidExpiration s) ∧
      checkExpiresIn msParse s = .error (.invalidExpiresIn s)) ∧
    (isNumeric s = true ∨ msParse s ≠ none →
      (∃ v, checkExpiration now msParse s = .ok v) ∧
      (∃ w, checkExpiresIn msParse s = .ok w)) := by
  constructor
  · intro hn hp
    constructor <;> simp [checkExpiration, checkExpiresIn, hn, hp]
  · intro h
    by_cases hn : isNumeric s
    · exact ⟨⟨jsParseInt s, by simp [checkExpiration, hn]⟩,
        ⟨jsParseInt s, by simp [checkExpiresIn, hn]⟩⟩
    · have hp : msParse s ≠ none := by
        rcases h with h | h
        · exact absurd h hn
        · exact h
      rcases Option.ne_none_iff_exists'.mp hp with ⟨d, hd⟩
      rw [Bool.not_eq_true] at hn
      exact ⟨⟨Int.fdiv (now + d) 1000, by simp [checkExpiration, hn, hd]⟩,
        ⟨Int.fdiv d 1000, by simp [checkExpiresIn, hn, hd]⟩⟩

theorem expiration_failure_characterization_witness :
    isNumeric "soon" = false ∧
    checkExpiration 0 (fun _ => none) "soon" = .error (.invalidExpiration "soon") ∧
    checkExpiresIn (fun _ => none) "soon" = .error (.invalidExpiresIn "soon") ∧
    (∃ v, checkExpiration 0 (fun _ => some 1000) "1 second" = .ok v) := by
  have h1 := (expiration_failure_characterization 0 (fun _ => none) "soon").1 (by decide) rfl
  have h2 := (expiration_failure_characterization 0 (fun _ => some 1000) "1 second").2
    (Or.inr (by simp))
  exact ⟨by decide, h1.1, h1.2, h2.1⟩

/-- C6: a successful `sign` call produces exactly the payload
`iss = partnerId, sub = videoId, ver = "1.0",
aud = "https://hivestreaming.com", cid = customerId, man = manifests` plus
the numeric `iat`/`exp` stamps, under a header with algorithm RS256 and
`kid` equal to the supplied key id, signed with the creator's private key. -/
theorem sign_payload_shape (c : HiveJwtCreator) (keyId customerId videoId : String)
    (manifests : List String) (expiresIn now : Int) :
    c.sign keyId customerId videoId manifests expiresIn now =
      { header := { alg := "RS256", kid := keyId },
        payload := [("iss", .str c.partnerId), ("sub", .str videoId),
          ("ver", .str "1.0"), ("aud", .str "https://hivestreaming.com"),
          ("cid", .str customerId), ("man", .arr manifests),
          ("iat", .num now), ("exp", .num (now + expiresIn))],
        signedWith := c.privateKey } := rfl

/-- C7: `signReporting` with the prod endpoint yields the redirect URL with
the bare hostname, the test endpoint yields the `-test` suffixed hostname,
both with path segment `adminportal-jwt/<token>`; any other endpoint string
is rejected by `checkEndpoint` with the invalid-endpoint error. -/
theorem signReporting_url_shape (c : HiveJwtCreator)
    (jwtEncode : SignedJwt → String) (keyId customerId videoId : String)
    (expiresIn now : Int) (endpoint : String) :
    (endpoint = "prod" →
      checkEndpoint endpoint = .ok .prod ∧
      c.signReporting jwtEncode keyId customerId videoId expiresIn now .prod =
        "https://api.hivestreaming.com/v1/url-redirect/adminportal-jwt/" ++
          jwtEncode (c.reportingJwt keyId customerId videoId expiresIn now)) ∧
    (endpoint = "test" →
      checkEndpoint endpoint = .ok .test ∧
      c.signReporting jwtEncode keyId customerId videoId expiresIn now .test =
        "https://api-test.hivestreaming.com/v1/url-redirect/adminportal-jwt/" ++
          jwtEncode (c.reportingJwt keyId customerId videoId expiresIn now)) ∧
    (endpoint ≠ "prod" → endpoint ≠ "test" →
      checkEndpoint endpoint = .error (.invalidEndpoint endpoint)) := by
  refine ⟨?_, ?_, ?_⟩
  · intro h
    subst h
    exact ⟨rfl, rfl⟩
  · intro h
    subst h
    exact ⟨rfl, rfl⟩
  · intro h1 h2
    simp [checkEndpoint, h1, h2]

theorem signReporting_url_shape_witness :
    HiveJwtCreator.signReporting ⟨"p", "key"⟩ (fun _ => "TOK") "k" "c" "v" 60 0 .prod =
      "https://api.hivestreaming.com/v1/url-redirect/adminportal-jwt/TOK" ∧
    HiveJwtCreator.signReporting ⟨"p", "key"⟩ (fun _ => "TOK") "k" "c" "v" 60 0 .test =
      "https://api-test.hivestreaming.com/v1/url-redirect/adminportal-jwt/TOK" ∧
    checkEndpoint "staging" = .error (.invalidEndpoint "staging") := by
  have h1 := (signReporting_url_shape ⟨"p", "key"⟩ (fun _ => "TOK") "k" "c" "v"
    60 0 "prod").1 rfl
  have h2 := (signReporting_url_shape ⟨"p", "key"⟩ (fun _ => "TOK") "k" "c" "v"
    60 0 "test").2.1 rfl
  have h3 := (signReporting_url_shape ⟨"p", "key"⟩ (fun _ => "TOK") "k" "c" "v"
    60 0 "staging").2.2 (by decide) (by decide)
  exact ⟨h1.2.trans rfl, h2.2.trans rfl, h3⟩

/-- C2: each of the four registry operations translates a remote failure
through the one shared handler (with the key id attached for get/create and
absent for list/delete); that handler maps response status 400, 403, 404,
410 to the validation, authorization, not-found and deleted error classes
respectively, identically for every caller, and rethrows every other caught
value unmodified. -/
theorem registry_error_mapping_uniform (c : HivePublicKeyServiceClient)
    (keyId : String) (includeDeleted : Bool) (response : AxiosResponse) (tag : Nat) :
    (∀ e : CaughtError,
      c.get keyId (.error e) = .error (c.axiosErrorHandler e (some keyId)) ∧
      c.create keyId (.error e) = .error (c.axiosErrorHandler e (some keyId)) ∧
      c.list includeDeleted (.error e) = .error (c.axiosErrorHandler e none) ∧
      c.delete keyId (.error e) = .error (c.axiosErrorHandler e none)) ∧
    (response.status = 400 → ∀ k,
      c.axiosErrorHandler (.axios (some response) tag) k = .validation response.data) ∧
    (response.status = 403 → ∀ k,
      c.axiosErrorHandler (.axios (some response) tag) k = .authorization) ∧
    (response.status = 404 → ∀ k,
      c.axiosErrorHandler (.axios (some response) tag) k = .notFound c.partnerId k) ∧
    (response.status = 410 → ∀ k,
      c.axiosErrorHandler (.axios (some response) tag) k = .deleted c.partnerId k) ∧
    (response.status ≠ 400 → response.status ≠ 403 → response.status ≠ 404 →
      response.status ≠ 410 → ∀ k,
      c.axiosErrorHandler (.axios (some response) tag) k =
        .rethrown (.axios (some response) tag)) ∧
    (∀ t k, c.axiosErrorHandler (.axios none t) k = .rethrown (.axios none t)) ∧
    (∀ t k, c.axiosErrorHandler (.nonAxios t) k = .rethrown (.nonAxios t)) := by
  refine ⟨fun e => ⟨rfl, rfl, rfl, rfl⟩, ?_, ?_, ?_, ?_, ?_, fun t k => rfl, fun t k => rfl⟩
  · intro h k
    exact axiosErrorHandler_status_400 c response tag k h
  · intro h k
    exact axiosErrorHandler_status_403 c response tag k h
  · intro h k
    exact axiosErrorHandler_status_404 c response tag k h
  · intro h k
    exact axiosErrorHandler_status_410 c response tag k h
  · intro h400 h403 h404 h410 k
    exact axiosErrorHandler_status_other c response tag k h400 h403 h404 h410

theorem registry_error_mapping_uniform_witness :
    HivePublicKeyServiceClient.get ⟨"p", "tok", "u"⟩ "k"
      (.error (.axios (some ⟨404, "nf"⟩) 0)) = .error (.notFound "p" (some "k")) ∧
    HivePublicKeyServiceClient.list ⟨"p", "tok", "u"⟩ false
      (.error (.axios (some ⟨403, ""⟩) 1)) = .error .authorization ∧
    HivePublicKeyServiceClient.create ⟨"p", "tok", "u"⟩ "k"
      (.error (.axios (some ⟨400, "bad"⟩) 2)) = .error (.validation "bad") ∧
    HivePublicKeyServiceClient.delete ⟨"p", "tok", "u"⟩ "k"
      (.error (.axios (some ⟨410, ""⟩) 3)) = .error (.deleted "p" none) ∧
    HivePublicKeyServiceClient.delete ⟨"p", "tok", "u"⟩ "k"
      (.error (.nonAxios 7)) = .error (.rethrown (.nonAxios 7)) ∧
    HivePublicKeyServiceClient.get ⟨"p", "tok", "u"⟩ "k"
      (.error (.axios (some ⟨500, "boom"⟩) 4)) =
      .error (.rethrown (.axios (some ⟨500, "boom"⟩) 4)) := by
  obtain ⟨hops4, _, _, h404, _, _, _, _⟩ :=
    registry_error_mapping_uniform ⟨"p", "tok", "u"⟩ "k" false ⟨404, "nf"⟩ 0
  obtain ⟨hops3, _, h403, _, _, _, _, _⟩ :=
    registry_error_mapping_uniform ⟨"p", "tok", "u"⟩ "k" false ⟨403, ""⟩ 1
  obtain ⟨hops0, h400, _, _, _, _, _, _⟩ :=
    registry_error_mapping_uniform ⟨"p", "tok", "u"⟩ "k" false ⟨400, "bad"⟩ 2
  obtain ⟨hops1, _, _, _, h410, _, _, _⟩ :=
    registry_error_mapping_uniform ⟨"p", "tok", "u"⟩ "k" false ⟨410, ""⟩ 3
  obtain ⟨hops5, _, _, _, _, hother, _, hnon⟩ :=
    registry_error_mapping_uniform ⟨"p", "tok", "u"⟩ "k" false ⟨500, "boom"⟩ 4
  refine ⟨?_, ?_, ?_, ?_, ?_, ?_⟩
  · exact ((hops4 (.axios (some ⟨404, "nf"⟩) 0)).1).trans
      (congrArg Except.error (h404 rfl (some "k")))
  · exact ((hops3 (.axios (some ⟨403, ""⟩) 1)).2.2.1).trans
      (congrArg Except.error (h403 rfl none))
  · exact ((hops0 (.axios (some ⟨400, "bad"⟩) 2)).2.1).trans
      (congrArg Except.error (h400 rfl (some "k")))
  · exact ((hops1 (.axios (some ⟨410, ""⟩) 3)).2.2.2).trans
      (congrArg Except.error (h410 rfl none))
  · exact ((hops5 (.nonAxios 7)).2.2.2).trans
      (congrArg Except.error (hnon 7 none))
  · exact ((hops5 (.axios (some ⟨500, "boom"⟩) 4)).1).trans
      (congrArg Except.error
        (hother (by decide) (by decide) (by decide) (by decide) (some "k")))

/-- C8: the payload built by the registry `create` carries the expiration
resolved in absolute mode when the argument is a string (a numeric string is
taken verbatim; a duration string becomes now plus the parsed duration,
floored to whole seconds), and carries a numeric argument unchanged. -/
theorem create_expiration_resolution (now : Int) (msParse : String → Option Int)
    (partnerId keyId exponent modulus : String) (n : Int) (s : String) (d : Int) :
    (HivePublicKeyServiceClient.createPayload now msParse partnerId keyId
        exponent modulus (.num n) = .ok ⟨partnerId, keyId, exponent, modulus, n⟩) ∧
    (isNumeric s = true →
      HivePublicKeyServiceClient.createPayload now msParse partnerId keyId
        exponent modulus (.str s) =
        .ok ⟨partnerId, keyId, exponent, modulus, jsParseInt s⟩) ∧
    (isNumeric s = false → msParse s = some d →
      HivePublicKeyServiceClient.createPayload now msParse partnerId keyId
        exponent modulus (.str s) =
        .ok ⟨partnerId, keyId, exponent, modulus, Int.fdiv (now + d) 1000⟩) := by
  refine ⟨rfl, ?_, ?_⟩
  · intro h
    simp [HivePublicKeyServiceClient.createPayload, checkExpiration, h, Except.map]
  · intro hn hp
    simp [HivePublicKeyServiceClient.createPayload, checkExpiration, hn, hp, Except.map]

theorem create_expiration_resolution_witness :
    HivePublicKeyServiceClient.createPayload 1700000000500 (fun _ => some 3600000)
      "p" "k" "e" "m" (.num 42) = .ok ⟨"p", "k", "e", "m", 42⟩ ∧
    HivePublicKeyServiceClient.createPayload 1700000000500 (fun _ => some 3600000)
      "p" "k" "e" "m" (.str "1700000099") = .ok ⟨"p", "k", "e", "m", 1700000099⟩ ∧
    HivePublicKeyServiceClient.createPayload 1700000000500 (fun _ => some 3600000)
      "p" "k" "e" "m" (.str "1h") = .ok ⟨"p", "k", "e", "m", 1700003600⟩ := by
  have h := create_expiration_resolution 1700000000500 (fun _ => some 3600000)
    "p" "k" "e" "m" 42 "1700000099" 3600000
  have h2 := create_expiration_resolution 1700000000500 (fun _ => some 3600000)
    "p" "k" "e" "m" 42 "1h" 3600000
  exact ⟨h.1, (h.2.1 (by decide)).trans (congrArg Except.ok (by decide)),
    (h2.2.2 (by decide) rfl).trans (congrArg Except.ok (by decide))⟩

/-- C9: two create-jwt invocations that agree on keyId, customerId, videoId,
manifest list and expiresIn produce the identical token whatever their
eventName and regexes arguments are, and any token the handler produces has
exactly the C6 payload keys — in particular no regexes claim. -/
theorem sign_extra_args_no_effect (c : HiveJwtCreator)
    (msParse : String → Option Int) (now : Int) (a b : CreateJwtArgs)
    (h1 : a.keyId = b.keyId) (h2 : a.customerId = b.customerId)
    (h3 : a.videoId = b.videoId) (h4 : a.manifest = b.manifest)
    (h5 : a.expiresIn = b.expiresIn) :
    createJwtHandler c msParse now a = createJwtHandler c msParse now b ∧
    ∀ jwt, createJwtHandler c msParse now a = some jwt →
      jwt.payload.map Prod.fst = ["iss", "sub", "ver", "aud", "cid", "man", "iat", "exp"] ∧
      jwt.payload.lookup "regexes" = none := by
  constructor
  · simp only [createJwtHandler, h1, h2, h3, h4, h5]
  · intro jwt hj
    unfold createJwtHandler at hj
    rcases Option.map_eq_some'.mp hj with ⟨secs, _, hsign⟩
    rw [← hsign]
    exact ⟨rfl, rfl⟩

theorem sign_extra_args_no_effect_witness :
    createJwtHandler ⟨"p", "key"⟩ (fun _ => some 60000) 5
        ⟨"k", "c", "v", ["m"], "1 minute", none, none⟩ =
      createJwtHandler ⟨"p", "key"⟩ (fun _ => some 60000) 5
        ⟨"k", "c", "v", ["m"], "1 minute", some "evt", some ["re"]⟩ ∧
    (∃ jwt, createJwtHandler ⟨"p", "key"⟩ (fun _ => some 60000) 5
        ⟨"k", "c", "v", ["m"], "1 minute", none, none⟩ = some jwt ∧
      jwt.payload.lookup "regexes" = none) := by
  have h := sign_extra_args_no_effect ⟨"p", "key"⟩ (fun _ => some 60000) 5
    ⟨"k", "c", "v", ["m"], "1 minute", none, none⟩
    ⟨"k", "c", "v", ["m"], "1 minute", some "evt", some ["re"]⟩
    rfl rfl rfl rfl rfl
  exact ⟨h.1, ⟨_, rfl, (h.2 _ rfl).2⟩⟩

/-- C10: on a remote 404 or 410 the list and delete operations invoke the
handler without the key id, so the resulting not-found or deleted error
carries no key id and its message renders the key id as "undefined", whereas
get and create pass the requested key id through. -/
theorem list_delete_errors_lack_keyId (c : HivePublicKeyServiceClient)
    (keyId : String) (includeDeleted : Bool) (response : AxiosResponse) (tag : Nat) :
    (response.status = 404 →
      c.list includeDeleted (.error (.axios (some response) tag)) =
        .error (.notFound c.partnerId none) ∧
      c.delete keyId (.error (.axios (some response) tag)) =
        .error (.notFound c.partnerId none) ∧
      c.get keyId (.error (.axios (some response) tag)) =
        .error (.notFound c.partnerId (some keyId)) ∧
      c.create keyId (.error (.axios (some response) tag)) =
        .error (.notFound c.partnerId (some keyId))) ∧
    (response.status = 410 →
      c.list includeDeleted (.error (.axios (some response) tag)) =
        .error (.deleted c.partnerId none) ∧
      c.delete keyId (.error (.axios (some response) tag)) =
        .error (.deleted c.partnerId none) ∧
      c.get keyId (.error (.axios (some response) tag)) =
        .error (.deleted c.partnerId (some keyId)) ∧
      c.create keyId (.error (.axios (some response) tag)) =
        .error (.deleted c.partnerId (some keyId))) ∧
    (HiveServiceError.notFound c.partnerId none).message =
      some ("Public key not found: " ++ c.partnerId ++ "/undefined") ∧
    (HiveServiceError.deleted c.partnerId none).message =
      some ("Public key has been deleted: " ++ c.partnerId ++ "/undefined") ∧
    (HiveServiceError.notFound c.partnerId (some keyId)).message =
      some ("Public key not found: " ++ c.partnerId ++ "/" ++ keyId) := by
  refine ⟨?_, ?_, ?_, ?_, rfl⟩
  · intro h
    exact ⟨congrArg Except.error (axiosErrorHandler_status_404 c response tag none h),
      congrArg Except.error (axiosErrorHandler_status_404 c response tag none h),
      congrArg Except.error (axiosErrorHandler_status_404 c response tag (some keyId) h),
      congrArg Except.error (axiosErrorHandler_status_404 c response tag (some keyId) h)⟩
  · intro h
    exact ⟨congrArg Except.error (axiosErrorHandler_status_410 c response tag none h),
      congrArg Except.error (axiosErrorHandler_status_410 c response tag none h),
      congrArg Except.error (axiosErrorHandler_status_410 c response tag (some keyId) h),
      congrArg Except.error (axiosErrorHandler_status_410 c response tag (some keyId) h)⟩
  · show some ("Public key not found: " ++ c.partnerId ++ "/" ++ "undefined") = _
    rw [String.append_assoc]
    rfl
  · show some ("Public key has been deleted: " ++ c.partnerId ++ "/" ++ "undefined") = _
    rw [String.append_assoc]
    rfl

theorem list_delete_errors_lack_keyId_witness :
    HivePublicKeyServiceClient.list ⟨"p", "tok", "u"⟩ true
      (.error (.axios (some ⟨404, ""⟩) 0)) = .error (.notFound "p" none) ∧
    HivePublicKeyServiceClient.delete ⟨"p", "tok", "u"⟩ "k"
      (.error (.axios (some ⟨410, ""⟩) 1)) = .error (.deleted "p" none) ∧
    HivePublicKeyServiceClient.get ⟨"p", "tok", "u"⟩ "k"
      (.error (.axios (some ⟨404, ""⟩) 0)) = .error (.notFound "p" (some "k")) ∧
    (HiveServiceError.notFound "p" none).message = some "Public key not found: p/undefined" := by
  have h4 := list_delete_errors_lack_keyId ⟨"p", "tok", "u"⟩ "k" true ⟨404, ""⟩ 0
  have h10 := list_delete_errors_lack_keyId ⟨"p", "tok", "u"⟩ "k" true ⟨410, ""⟩ 1
  exact ⟨(h4.1 rfl).1, (h10.2.1 rfl).2.1, (h4.1 rfl).2.2.1,
    h4.2.2.1.trans (congrArg some rfl)⟩

/-- C1 (evaluation at the failing input): the create-jwt handler invoked
with manifests = ["a"] and regexes = ["b"] does not fail — it returns a
signed token whose payload carries man = ["a"] and no regexes claim, because
`sign` never invokes the exclusivity check; the exported helper
`checkManifestOrArray`, which the claim describes and which `sign` never
calls, does throw on that pair and does succeed with man = [] and
regexes = ["b"] on the pair ([], ["b"]). -/
theorem sign_bypasses_manifest_regex_exclusivity :
    (∃ jwt, createJwtHandler ⟨"p", "key"⟩ (fun _ => some 60000) 5
        ⟨"k", "c", "v", ["a"], "1 minute", none, some ["b"]⟩ = some jwt ∧
      jwt.payload.lookup "man" = some (.arr ["a"]) ∧
      jwt.payload.lookup "regexes" = none) ∧
    checkManifestOrArray ["a"] (some ["b"]) = .error .manifestOrRegex ∧
    checkManifestOrArray [] (some ["b"]) = .ok { man := [], regexes := some ["b"] } := by
  exact ⟨⟨_, rfl, rfl, rfl⟩, rfl, rfl⟩
